import Mathlib

/-!
Shallow embedding of the health-assessment core of the repository
(`scientific_health_assessment.js`) and of the chat-relay proxy server,
with theorems settling the specification claims.

JavaScript numbers are modelled as rationals (`ℚ`); a JS object field that
may be `undefined` is modelled as an `Option`.  JS truthiness of a numeric
value (`!x`, `x || y`) is modelled explicitly: `undefined` and `0` are falsy.
-/

/-- Blood-pressure substructure of a reading: `{systolic, diastolic, pulse}`.
The `pulse` field may be absent on the JS object. -/
structure BPData where
  systolic : ℚ
  diastolic : ℚ
  pulse : Option ℚ
deriving DecidableEq, Repr

/-- SpO2 substructure of a reading: `{percent, pi, pr}`.  The `pr` field may
be absent on the JS object. -/
structure SpO2Data where
  percent : ℚ
  pi : ℚ
  pr : Option ℚ
deriving DecidableEq, Repr

/-- Temperature substructure of a reading: `{value, location}`. -/
structure TempData where
  value : ℚ
  location : String
deriving DecidableEq, Repr

/-- A `VitalReading` / `healthData` object; each substructure is optional. -/
structure HealthData where
  bloodPressure : Option BPData
  spO2 : Option SpO2Data
  temperature : Option TempData
deriving DecidableEq, Repr

/-- JS truthiness of an optional number: `undefined` and `0` are falsy. -/
def optTruthy (x : Option ℚ) : Bool :=
  match x with
  | none => false
  | some v => decide (v ≠ 0)

/-- JS `a || b` on optional numbers: yields `a` when `a` is truthy, else `b`. -/
def jsOr (a b : Option ℚ) : Option ℚ :=
  if optTruthy a then a else b

/-- The pulse-source precedence used throughout the module:
`healthData.bloodPressure?.pulse || healthData.spO2?.pr`. -/
def pulseSource (h : HealthData) : Option ℚ :=
  jsOr (h.bloodPressure.bind (fun bp => bp.pulse)) (h.spO2.bind (fun s => s.pr))

/-- Result of a vital-sign classifier: the `no_data` sentinel or a
classification `{category, riskLevel, value(s)}`. -/
inductive PulseResult
  | noData
  | classified (category riskLevel : String) (value : ℚ)
deriving DecidableEq, Repr

/-- `ScientificHealthAssessment.assessPulse` (lines 211–234): the guard is
JS `!pulseData`, so `undefined` and `0` both give the `no_data` sentinel;
then the `if/else` chain tests `<50`, `>100`, `>120` in that source order. -/
def ScientificHealthAssessment.assessPulse (pulseData : Option ℚ) : PulseResult :=
  match pulseData with
  | none => .noData
  | some v =>
    if v = 0 then .noData
    else if v < 50 then .classified "bradycardia" "moderate" v
    else if v > 100 then .classified "tachycardia" "moderate" v
    else if v > 120 then .classified "severe_tachycardia" "high" v
    else .classified "normal" "low" v

/-- Result of the blood-pressure classifier. -/
inductive BPResult
  | noData
  | classified (category riskLevel : String) (systolic diastolic : ℚ) (pulse : Option ℚ)
deriving DecidableEq, Repr

/-- `ScientificHealthAssessment.assessBloodPressure` (lines 100–131):
WHO/ISH 2021 staging, each stage an or-rule over systolic and diastolic. -/
def ScientificHealthAssessment.assessBloodPressure (bpData : Option BPData) : BPResult :=
  match bpData with
  | none => .noData
  | some bp =>
    if 180 ≤ bp.systolic ∨ 110 ≤ bp.diastolic then
      .classified "stage3_hypertension" "very_high" bp.systolic bp.diastolic bp.pulse
    else if 160 ≤ bp.systolic ∨ 100 ≤ bp.diastolic then
      .classified "stage2_hypertension" "high" bp.systolic bp.diastolic bp.pulse
    else if 140 ≤ bp.systolic ∨ 90 ≤ bp.diastolic then
      .classified "stage1_hypertension" "moderate" bp.systolic bp.diastolic bp.pulse
    else if 130 ≤ bp.systolic ∨ 85 ≤ bp.diastolic then
      .classified "high_normal" "low_moderate" bp.systolic bp.diastolic bp.pulse
    else
      .classified "normal" "low" bp.systolic bp.diastolic bp.pulse

/-- Category string of a `BPResult` (empty for the sentinel). -/
def BPResult.categoryOf : BPResult → String
  | .noData => ""
  | .classified c _ _ _ _ => c

/-- Risk-level string of a `BPResult` (empty for the sentinel). -/
def BPResult.riskLevelOf : BPResult → String
  | .noData => ""
  | .classified _ r _ _ _ => r

/-- `Math.max(0, Math.min(1, score))` — the clamp every sub-model applies. -/
def clamp01 (x : ℚ) : ℚ := max 0 (min 1 x)

/-- `BloodPressureStabilityModel.calculateStability` (lines 508–512):
`cv = |systolic − diastolic| / ((systolic + diastolic) / 2)`.
When the mean is `0` the JS quotient is `NaN` or `Infinity`, and every
comparison in the chain is false, landing on `'unstable'`; that case is
made explicit here. -/
def BloodPressureStabilityModel.calculateStability (bp : BPData) : String :=
  if bp.systolic + bp.diastolic = 0 then "unstable"
  else
    let cv := |bp.systolic - bp.diastolic| / ((bp.systolic + bp.diastolic) / 2)
    if cv < 0.1 then "stable" else if cv < 0.2 then "moderate" else "unstable"

/-- Variability record `{coefficient, interpretation}`. -/
structure Variability where
  coefficient : ℚ
  interpretation : String
deriving DecidableEq, Repr

/-- `BloodPressureStabilityModel.calculateVariability` (lines 514–523):
coefficient `|systolic − diastolic| / mean × 100`; `<10` low, `<20` moderate,
else high.  Zero mean gives JS `NaN`/`Infinity`, which falls through to
`'high'` (coefficient reported as `0` here, unused downstream). -/
def BloodPressureStabilityModel.calculateVariability (bp : BPData) : Variability :=
  if bp.systolic + bp.diastolic = 0 then ⟨0, "high"⟩
  else
    let c := |bp.systolic - bp.diastolic| / ((bp.systolic + bp.diastolic) / 2) * 100
    ⟨c, if c < 10 then "low" else if c < 20 then "moderate" else "high"⟩

/-- `BloodPressureStabilityModel.calculateStabilityScore` (lines 530–544):
base `0.5`, additive adjustments by stability and variability tier, clamped. -/
def BloodPressureStabilityModel.calculateStabilityScore
    (stability : String) (variability : Variability) : ℚ :=
  let s1 : ℚ :=
    if stability = "stable" then 0.5 + 0.3
    else if stability = "moderate" then 0.5 + 0.1
    else 0.5 - 0.2
  let s2 : ℚ :=
    if variability.interpretation = "low" then s1 + 0.2
    else if variability.interpretation = "moderate" then s1 + 0.1
    else s1 - 0.1
  clamp01 s2

/-- `BloodPressureStabilityModel.assess` (lines 483–506), reduced to the
`score` field: with no blood-pressure data the JS object carries `score: 0`
(a *defined* field), else the clamped stability score. -/
def BloodPressureStabilityModel.assessScore (h : HealthData) : Option ℚ :=
  match h.bloodPressure with
  | none => some 0
  | some bp =>
    some (BloodPressureStabilityModel.calculateStabilityScore
      (BloodPressureStabilityModel.calculateStability bp)
      (BloodPressureStabilityModel.calculateVariability bp))

/-- `BloodOxygenPerfusionModel.calculatePerfusion` (lines 583–590). -/
def BloodOxygenPerfusionModel.calculatePerfusion (s : SpO2Data) : String :=
  if s.pi < 0.5 then "poor"
  else if s.pi < 1 then "fair"
  else if s.pi < 2 then "good"
  else "excellent"

/-- Efficiency record `{ratio, interpretation}`. -/
structure Efficiency where
  ratio : ℚ
  interpretation : String
deriving DecidableEq, Repr

/-- `BloodOxygenPerfusionModel.calculateEfficiency` (lines 592–599). -/
def BloodOxygenPerfusionModel.calculateEfficiency (s : SpO2Data) : Efficiency :=
  let e := s.percent / 100
  ⟨e, if 0.95 ≤ e then "excellent" else if 0.9 ≤ e then "good" else "poor"⟩

/-- `BloodOxygenPerfusionModel.calculatePerfusionScore` (lines 606–621). -/
def BloodOxygenPerfusionModel.calculatePerfusionScore
    (perfusion : String) (efficiency : Efficiency) : ℚ :=
  let s1 : ℚ :=
    if perfusion = "excellent" then 0.5 + 0.3
    else if perfusion = "good" then 0.5 + 0.2
    else if perfusion = "fair" then 0.5 + 0.1
    else 0.5 - 0.2
  let s2 : ℚ :=
    if efficiency.interpretation = "excellent" then s1 + 0.2
    else if efficiency.interpretation = "good" then s1 + 0.1
    else s1 - 0.1
  clamp01 s2

/-- `BloodOxygenPerfusionModel.assess` (lines 559–581), reduced to `score`:
`score: 0` (defined) when the SpO2 substructure is absent. -/
def BloodOxygenPerfusionModel.assessScore (h : HealthData) : Option ℚ :=
  match h.spO2 with
  | none => some 0
  | some s =>
    some (BloodOxygenPerfusionModel.calculatePerfusionScore
      (BloodOxygenPerfusionModel.calculatePerfusion s)
      (BloodOxygenPerfusionModel.calculateEfficiency s))

/-- Per-field classification inside the temperature-pulse-synergy model:
`{category, riskLevel, score}`. -/
structure TPSClass where
  category : String
  riskLevel : String
  score : ℚ
deriving DecidableEq, Repr

/-- The per-site normal temperature ranges (lines 666–674); unknown sites
default to the axillary (`"腋下"`) range. -/
def normalRangeFor (location : String) : ℚ × ℚ :=
  if location = "腋下" then (36, 37.2)
  else if location = "口腔" then (36.3, 37.2)
  else if location = "直腸" then (36.6, 37.6)
  else if location = "耳溫" then (36.1, 37.1)
  else if location = "額溫" then (35.8, 37)
  else (36, 37.2)

/-- `TemperaturePulseSynergyModel.assessTemperature` (lines 664–681). -/
def TemperaturePulseSynergyModel.assessTemperature (t : TempData) : TPSClass :=
  let range := normalRangeFor t.location
  if t.value > range.2 + 0.5 then ⟨"high_fever", "high", 0.2⟩
  else if t.value > range.2 then ⟨"fever", "moderate", 0.4⟩
  else if t.value < range.1 - 0.5 then ⟨"hypothermia", "high", 0.2⟩
  else if t.value < range.1 then ⟨"low_normal", "low_moderate", 0.6⟩
  else ⟨"normal", "low", 1⟩

/-- `TemperaturePulseSynergyModel.assessPulse` (lines 683–688): here the
`>120` test comes *before* `>100`, unlike the orchestrator's classifier. -/
def TemperaturePulseSynergyModel.assessPulse (v : ℚ) : TPSClass :=
  if v < 50 then ⟨"bradycardia", "moderate", 0.4⟩
  else if v > 120 then ⟨"severe_tachycardia", "high", 0.2⟩
  else if v > 100 then ⟨"tachycardia", "moderate", 0.6⟩
  else ⟨"normal", "low", 1⟩

/-- `TemperaturePulseSynergyModel.riskLevelToNumber` (lines 704–707). -/
def TemperaturePulseSynergyModel.riskLevelToNumber (r : String) : ℚ :=
  if r = "low" then 0.2
  else if r = "low_moderate" then 0.4
  else if r = "moderate" then 0.6
  else if r = "high" then 0.8
  else if r = "very_high" then 1
  else 0.5

/-- `TemperaturePulseSynergyModel.analyzeCorrelation` (lines 709–718): the
positive-correlation rule fires only for the exact category pairs
fever + tachycardia and hypothermia + bradycardia. -/
def TemperaturePulseSynergyModel.analyzeCorrelation (temp pulse : TPSClass) : String :=
  if temp.category = "fever" ∧ pulse.category = "tachycardia" then "positive_correlation"
  else if temp.category = "hypothermia" ∧ pulse.category = "bradycardia" then "positive_correlation"
  else "no_significant_correlation"

/-- Synergy record `{score, interpretation, correlation}`. -/
structure Synergy where
  score : ℚ
  interpretation : String
  correlation : String
deriving DecidableEq, Repr

/-- `TemperaturePulseSynergyModel.calculateSynergy` (lines 690–702). -/
def TemperaturePulseSynergyModel.calculateSynergy (temp pulse : TPSClass) : Synergy :=
  let tempRisk := TemperaturePulseSynergyModel.riskLevelToNumber temp.riskLevel
  let pulseRisk := TemperaturePulseSynergyModel.riskLevelToNumber pulse.riskLevel
  let synergyScore := (tempRisk + pulseRisk) / 2
  ⟨synergyScore,
   if synergyScore < 0.3 then "good" else if synergyScore < 0.6 then "moderate" else "poor",
   TemperaturePulseSynergyModel.analyzeCorrelation temp pulse⟩

/-- `TemperaturePulseSynergyModel.calculateSynergyScore` (lines 720–735). -/
def TemperaturePulseSynergyModel.calculateSynergyScore
    (temp pulse : TPSClass) (synergy : Synergy) : ℚ :=
  let s1 : ℚ := 0.5 + (temp.score - 0.5) * 0.3 + (pulse.score - 0.5) * 0.3
  let s2 : ℚ :=
    if synergy.interpretation = "good" then s1 + 0.2
    else if synergy.interpretation = "moderate" then s1 + 0.1
    else s1 - 0.1
  clamp01 s2

/-- Result of `TemperaturePulseSynergyModel.assess`: the insufficient-data
sentinel (whose JS object still carries `score: 0`) or a full assessment. -/
inductive TPSResult
  | insufficientData
  | assessed (temperature pulse : TPSClass) (synergy : Synergy) (score : ℚ)
deriving DecidableEq, Repr

/-- The `score` field of a `TPSResult`; defined (as `0`) even on the
insufficient-data sentinel, mirroring the JS object literal. -/
def TPSResult.scoreVal : TPSResult → ℚ
  | .insufficientData => 0
  | .assessed _ _ _ s => s

/-- The `synergy.correlation` field of a `TPSResult`, when present. -/
def TPSResult.correlationOf : TPSResult → Option String
  | .insufficientData => none
  | .assessed _ _ syn _ => some syn.correlation

/-- `TemperaturePulseSynergyModel.assess` (lines 636–662): the guard is JS
`!tempData || !pulseData` where `pulseData` is the pulse-source fallback, so
an absent substructure or a falsy (`0`) pulse yields the sentinel. -/
def TemperaturePulseSynergyModel.assess (h : HealthData) : TPSResult :=
  match h.temperature, pulseSource h with
  | some t, some pv =>
    if pv = 0 then .insufficientData
    else
      let temp := TemperaturePulseSynergyModel.assessTemperature t
      let pul := TemperaturePulseSynergyModel.assessPulse pv
      let syn := TemperaturePulseSynergyModel.calculateSynergy temp pul
      .assessed temp pul syn (TemperaturePulseSynergyModel.calculateSynergyScore temp pul syn)
  | _, _ => .insufficientData

/-- `score` field of the temperature-pulse-synergy assessment, as seen by
the composite scorer: always a defined number. -/
def TemperaturePulseSynergyModel.assessScore (h : HealthData) : Option ℚ :=
  some (TemperaturePulseSynergyModel.assess h).scoreVal

/-- The default weight table from `ParameterCustomization` (lines 794–799). -/
structure Weights where
  bloodPressureStability : ℚ
  bloodOxygenPerfusion : ℚ
  temperaturePulseSynergy : ℚ
deriving DecidableEq, Repr

/-- `ParameterCustomization.getWeights` on the constructor defaults. -/
def defaultWeights : Weights := ⟨0.35, 0.25, 0.40⟩

/-- JS `Math.round`: round half away from zero toward `+∞`. -/
def jsRound (x : ℚ) : ℚ := ((⌊x + 1/2⌋ : ℤ) : ℚ)

/-- `ScientificHealthAssessment.scoreToGrade` (lines 406–412). -/
def ScientificHealthAssessment.scoreToGrade (s : ℚ) : String :=
  if 0.9 ≤ s then "excellent"
  else if 0.8 ≤ s then "good"
  else if 0.6 ≤ s then "fair"
  else if 0.4 ≤ s then "poor"
  else "critical"

/-- `ScientificHealthAssessment.calculateConfidence` (lines 414–416):
`Math.min(totalWeight * 100, 100)`. -/
def ScientificHealthAssessment.calculateConfidence (totalWeight : ℚ) : ℚ :=
  min (totalWeight * 100) 100

/-- The composite result `{score, grade, confidence}` (breakdown and echoed
weight table omitted: no claim mentions them). -/
structure CompositeScore where
  score : ℚ
  grade : String
  confidence : ℚ
deriving DecidableEq, Repr

/-- `ScientificHealthAssessment.calculateCompositeScore` (lines 239–276):
each sub-model whose `score` field is defined (`!== undefined`) contributes
`score × weight` to the numerator and `weight` to the denominator; the
quotient is guarded by `totalWeight > 0`, the reported score is rounded to
two decimals, the grade is taken from the unrounded quotient.
`compStep` is one guarded addition to the accumulator pair
`(totalScore, totalWeight)`; `compTotals` is the pair after all three. -/
def compStep (p : ℚ × ℚ) (wgt : ℚ) (o : Option ℚ) : ℚ × ℚ :=
  match o with
  | some s => (p.1 + s * wgt, p.2 + wgt)
  | none => p

/-- The accumulator pair `(totalScore, totalWeight)` of
`calculateCompositeScore` after the three guarded additions. -/
def compTotals (w : Weights) (bpScore spo2Score tpScore : Option ℚ) : ℚ × ℚ :=
  compStep
    (compStep (compStep (0, 0) w.bloodPressureStability bpScore)
      w.bloodOxygenPerfusion spo2Score)
    w.temperaturePulseSynergy tpScore

/-- The tail of `calculateCompositeScore` (lines 263–275): guarded quotient,
two-decimal rounding, grade from the unrounded quotient, confidence from the
total weight. -/
def ScientificHealthAssessment.calculateCompositeScore
    (w : Weights) (bpScore spo2Score tpScore : Option ℚ) : CompositeScore :=
  let p3 := compTotals w bpScore spo2Score tpScore
  let composite : ℚ := if 0 < p3.2 then p3.1 / p3.2 else 0
  { score := jsRound (composite * 100) / 100
    grade := ScientificHealthAssessment.scoreToGrade composite
    confidence := ScientificHealthAssessment.calculateConfidence p3.2 }

/-- Step 4 of `generateComprehensiveAssessment`: the composite score of a
reading, from the three sub-model assessments under the default weights. -/
def compositeFor (h : HealthData) : CompositeScore :=
  ScientificHealthAssessment.calculateCompositeScore defaultWeights
    (BloodPressureStabilityModel.assessScore h)
    (BloodOxygenPerfusionModel.assessScore h)
    (TemperaturePulseSynergyModel.assessScore h)

/-- `ScientificHealthAssessment.getFollowUpInterval` (lines 418–426);
`每日`/`每週`/`每月`/`每季度` are daily/weekly/monthly/quarterly. -/
def ScientificHealthAssessment.getFollowUpInterval (riskCategory : String) : String :=
  if riskCategory = "very_high" then "每日"
  else if riskCategory = "high" then "每週"
  else if riskCategory = "moderate" then "每月"
  else if riskCategory = "low" then "每季度"
  else "每月"

/-- A risk-stratification result `{category, recommendations, followUpInterval}`
(`level` and `score` echo the inputs and are omitted). -/
structure RiskStrat where
  category : String
  recommendations : List String
  followUpInterval : String
deriving DecidableEq, Repr

/-- `ScientificHealthAssessment.performRiskStratification` (lines 281–308). -/
def ScientificHealthAssessment.performRiskStratification
    (grade : String) (score : ℚ) : RiskStrat :=
  let rc : String × List String :=
    if grade = "critical" ∨ score < 0.4 then
      ("very_high", ["立即就醫", "密切監測生命體徵", "避免劇烈活動"])
    else if grade = "poor" ∨ score < 0.6 then
      ("high", ["建議就醫諮詢", "增加監測頻率", "調整生活方式"])
    else if grade = "fair" ∨ score < 0.8 then
      ("moderate", ["定期監測", "改善生活習慣", "預防性措施"])
    else
      ("low", ["維持良好習慣", "定期體檢", "持續監測"])
  ⟨rc.1, rc.2, ScientificHealthAssessment.getFollowUpInterval rc.1⟩

/-- A derived insight; the six fields of the JS object literal. -/
structure Insight where
  type : String
  insight : String
  confidence : String
  recommendation : String
  reference : String
  derivation : String
deriving DecidableEq, Repr

/-- JS `x > c` on an optional number: false when the field is `undefined`
(`undefined > c` is a `NaN` comparison). -/
def optGT (x : Option ℚ) (c : ℚ) : Bool :=
  match x with
  | none => false
  | some v => decide (c < v)

/-- JS `x < c` on an optional number: false when the field is `undefined`. -/
def optLT (x : Option ℚ) (c : ℚ) : Bool :=
  match x with
  | none => false
  | some v => decide (v < c)

/-- `DataDerivationLogic.deriveCirculationInsight` (lines 875–902). -/
def DataDerivationLogic.deriveCirculationInsight (bp : BPData) : Option Insight :=
  if decide (140 ≤ bp.systolic) && optGT bp.pulse 100 then
    some ⟨"circulation", "血壓偏高且脈搏加快，提示循環系統負荷增加", "moderate",
      "建議監測血糖水平，排除代謝異常", "基於《基礎生命體徵臨床解讀指南》第3章",
      "因無血糖數據，暫通過「血壓偏高+脈搏加快」間接提示代謝異常風險"⟩
  else if decide (bp.systolic < 100) && optLT bp.pulse 60 then
    some ⟨"circulation", "血壓偏低且脈搏緩慢，提示循環系統功能可能減弱", "moderate",
      "建議評估心臟功能和體液狀態", "基於《基礎生命體徵臨床解讀指南》第3章",
      "基於血壓和脈搏的協同變化推導循環系統狀態"⟩
  else none

/-- `DataDerivationLogic.deriveRespiratoryInsight` (lines 904–920). -/
def DataDerivationLogic.deriveRespiratoryInsight (s : SpO2Data) : Option Insight :=
  if s.percent < 95 ∧ s.pi < 1 then
    some ⟨"respiratory", "血氧飽和度偏低且灌注指數較低，提示可能存在呼吸或循環問題", "moderate",
      "建議評估呼吸功能和肺功能", "基於《基礎生命體徵臨床解讀指南》第4章",
      "通過%SpO2與PI%的比值分析外周循環狀態"⟩
  else none

/-- `DataDerivationLogic.deriveMetabolicInsight` (lines 922–938). -/
def DataDerivationLogic.deriveMetabolicInsight (t : TempData) (pulseData : ℚ) : Option Insight :=
  if t.value > 37.5 ∧ pulseData > 100 then
    some ⟨"metabolic", "體溫升高且脈搏加快，提示代謝率增加", "moderate",
      "建議監測炎症指標和代謝參數", "基於《基礎生命體徵臨床解讀指南》第5章",
      "基於體溫和脈搏的協同變化推導代謝狀態"⟩
  else none

/-- `DataDerivationLogic.generateInsights` (lines 847–873), reduced to the
`insights` list.  The metabolic rule is guarded by JS truthiness of
`healthData.temperature && (bloodPressure?.pulse || spO2?.pr)`. -/
def DataDerivationLogic.generateInsights (h : HealthData) : List Insight :=
  let l1 : List Insight :=
    match h.bloodPressure with
    | some bp =>
      match DataDerivationLogic.deriveCirculationInsight bp with
      | some i => [i]
      | none => []
    | none => []
  let l2 : List Insight :=
    match h.spO2 with
    | some s =>
      match DataDerivationLogic.deriveRespiratoryInsight s with
      | some i => [i]
      | none => []
    | none => []
  let l3 : List Insight :=
    match h.temperature, pulseSource h with
    | some t, some pv =>
      if pv = 0 then []
      else
        match DataDerivationLogic.deriveMetabolicInsight t pv with
        | some i => [i]
        | none => []
    | _, _ => []
  l1 ++ l2 ++ l3

/-- An HTTP response of the chat-relay proxy, reduced to its status code and
the JSON body fields the handlers set (absent fields are `none`). -/
structure HttpResponse where
  status : ℕ
  okField : Option Bool
  messageField : Option String
  errorField : Option String
deriving DecidableEq, Repr

/-- The proxy's `GET /` handler: 200 with a health-check JSON body. -/
def getRootHandler : HttpResponse :=
  ⟨200, some true, some "Proxy server is running. Use POST /api/chat to send messages.", none⟩

/-- The proxy's `GET /api/chat` handler: 405 with a JSON hint body. -/
def getApiChatHandler : HttpResponse :=
  ⟨405, some false,
   some "Method Not Allowed. Please POST to /api/chat with \x7b model, messages \x7d.", none⟩

/-- An upstream (axios) error response: `error.response` with its HTTP
status and data, when the upstream answered at all. -/
structure UpstreamError where
  status : ℕ
  data : String
deriving DecidableEq, Repr

/-- The `catch` branch of the proxy's `POST /api/chat` handler:
`res.status(error.response ? error.response.status : 500)` with a JSON body
`{message, error}` where `error` is the upstream data or the error message. -/
def postApiChatFailure (response : Option UpstreamError) (errMessage : String) : HttpResponse :=
  match response with
  | some u => ⟨u.status, none, some "Error proxying to DeepSeek API", some u.data⟩
  | none => ⟨500, none, some "Error proxying to DeepSeek API", some errMessage⟩

/-- Modelled from the spec: the blood-pressure stage determined by the
systolic value alone (thresholds 180/160/140/130), as an ordinal 0–4. -/
def specSystolicLevel (s : ℚ) : ℕ :=
  if 180 ≤ s then 4
  else if 160 ≤ s then 3
  else if 140 ≤ s then 2
  else if 130 ≤ s then 1
  else 0

/-- Modelled from the spec: the blood-pressure stage determined by the
diastolic value alone (thresholds 110/100/90/85), as an ordinal 0–4. -/
def specDiastolicLevel (d : ℚ) : ℕ :=
  if 110 ≤ d then 4
  else if 100 ≤ d then 3
  else if 90 ≤ d then 2
  else if 85 ≤ d then 1
  else 0

/-- The category string attached to each blood-pressure stage ordinal. -/
def bpCategoryOfLevel : ℕ → String
  | 4 => "stage3_hypertension"
  | 3 => "stage2_hypertension"
  | 2 => "stage1_hypertension"
  | 1 => "high_normal"
  | _ => "normal"

/-- The risk-level string attached to each blood-pressure stage ordinal. -/
def bpRiskOfLevel : ℕ → String
  | 4 => "very_high"
  | 3 => "high"
  | 2 => "moderate"
  | 1 => "low_moderate"
  | _ => "low"

/-- The stage ordinal computed by the code's or-rule cascade. -/
def codeBPLevel (s d : ℚ) : ℕ :=
  if 180 ≤ s ∨ 110 ≤ d then 4
  else if 160 ≤ s ∨ 100 ≤ d then 3
  else if 140 ≤ s ∨ 90 ≤ d then 2
  else if 130 ≤ s ∨ 85 ≤ d then 1
  else 0

/-- The risk-tier ordinal `low < low_moderate < moderate < high < very_high`. -/
def tierOrd (r : String) : ℕ :=
  if r = "low" then 0
  else if r = "low_moderate" then 1
  else if r = "moderate" then 2
  else if r = "high" then 3
  else if r = "very_high" then 4
  else 0

theorem assessBloodPressure_level (bp : BPData) :
    ScientificHealthAssessment.assessBloodPressure (some bp) =
      .classified (bpCategoryOfLevel (codeBPLevel bp.systolic bp.diastolic))
        (bpRiskOfLevel (codeBPLevel bp.systolic bp.diastolic))
        bp.systolic bp.diastolic bp.pulse := by
  simp only [ScientificHealthAssessment.assessBloodPressure, codeBPLevel]
  split_ifs <;> rfl

theorem codeBPLevel_eq_max (s d : ℚ) :
    codeBPLevel s d = max (specSystolicLevel s) (specDiastolicLevel d) := by
  unfold codeBPLevel specSystolicLevel specDiastolicLevel
  by_cases h1 : (180 : ℚ) ≤ s <;> by_cases h2 : (160 : ℚ) ≤ s <;>
    by_cases h3 : (140 : ℚ) ≤ s <;> by_cases h4 : (130 : ℚ) ≤ s <;>
    by_cases k1 : (110 : ℚ) ≤ d <;> by_cases k2 : (100 : ℚ) ≤ d <;>
    by_cases k3 : (90 : ℚ) ≤ d <;> by_cases k4 : (85 : ℚ) ≤ d <;>
    simp [h1, h2, h3, h4, k1, k2, k3, k4]

theorem specSystolicLevel_mono {s₁ s₂ : ℚ} (h : s₁ ≤ s₂) :
    specSystolicLevel s₁ ≤ specSystolicLevel s₂ := by
  unfold specSystolicLevel
  split_ifs <;> first | omega | linarith

theorem codeBPLevel_le_four (s d : ℚ) : codeBPLevel s d ≤ 4 := by
  unfold codeBPLevel
  split_ifs <;> omega

theorem tierOrd_bpRiskOfLevel {n : ℕ} (h : n ≤ 4) : tierOrd (bpRiskOfLevel n) = n := by
  interval_cases n <;> rfl

/-- Modelled from the spec: `critical` or score `< 0.4` → very_high; `poor`
or `< 0.6` → high; `fair` or `< 0.8` → moderate; else low. -/
def specRiskCategory (grade : String) (score : ℚ) : String :=
  if grade = "critical" ∨ score < 0.4 then "very_high"
  else if grade = "poor" ∨ score < 0.6 then "high"
  else if grade = "fair" ∨ score < 0.8 then "moderate"
  else "low"

/-- The fixed recommendation list attached to each risk category. -/
def recommendationsFor (riskCategory : String) : List String :=
  if riskCategory = "very_high" then ["立即就醫", "密切監測生命體徵", "避免劇烈活動"]
  else if riskCategory = "high" then ["建議就醫諮詢", "增加監測頻率", "調整生活方式"]
  else if riskCategory = "moderate" then ["定期監測", "改善生活習慣", "預防性措施"]
  else ["維持良好習慣", "定期體檢", "持續監測"]

theorem clamp01_bounds (x : ℚ) : 0 ≤ clamp01 x ∧ clamp01 x ≤ 1 :=
  ⟨le_max_left 0 _, max_le (by norm_num) (min_le_left 1 x)⟩

theorem jsRound_pct_bounds {x : ℚ} (h0 : 0 ≤ x) (h1 : x ≤ 1) :
    0 ≤ jsRound (x * 100) / 100 ∧ jsRound (x * 100) / 100 ≤ 1 := by
  unfold jsRound
  constructor
  · have hf : (0 : ℤ) ≤ ⌊x * 100 + 1/2⌋ := Int.floor_nonneg.mpr (by linarith)
    have : (0 : ℚ) ≤ ((⌊x * 100 + 1/2⌋ : ℤ) : ℚ) := by exact_mod_cast hf
    positivity
  · have hf : ⌊x * 100 + 1/2⌋ < 101 := Int.floor_lt.mpr (by push_cast; linarith)
    have h2 : ⌊x * 100 + 1/2⌋ ≤ 100 := by omega
    rw [div_le_one (by norm_num)]
    exact_mod_cast h2

theorem comp_quotient_bounds {ts tw : ℚ} (h0 : 0 ≤ ts) (h1 : ts ≤ tw) :
    0 ≤ (if 0 < tw then ts / tw else 0) ∧ (if 0 < tw then ts / tw else 0) ≤ 1 := by
  split_ifs with h
  · exact ⟨div_nonneg h0 h.le, (div_le_one h).mpr h1⟩
  · norm_num

theorem confidence_bounds {tw : ℚ} (h : 0 ≤ tw) :
    0 ≤ ScientificHealthAssessment.calculateConfidence tw ∧
      ScientificHealthAssessment.calculateConfidence tw ≤ 100 := by
  unfold ScientificHealthAssessment.calculateConfidence
  exact ⟨le_min (by positivity) (by norm_num), min_le_right _ _⟩

theorem compStep_bounds {p : ℚ × ℚ} (hp : 0 ≤ p.1 ∧ p.1 ≤ p.2) {wgt : ℚ} (hw : 0 ≤ wgt)
    {o : Option ℚ} (ho : ∀ x, o = some x → 0 ≤ x ∧ x ≤ 1) :
    0 ≤ (compStep p wgt o).1 ∧ (compStep p wgt o).1 ≤ (compStep p wgt o).2 := by
  rcases o with _ | s
  · exact hp
  · obtain ⟨h0, h1⟩ := ho s rfl
    simp only [compStep]
    constructor <;> nlinarith [hp.1, hp.2]

theorem compTotals_bounds (w : Weights)
    (hw1 : 0 ≤ w.bloodPressureStability) (hw2 : 0 ≤ w.bloodOxygenPerfusion)
    (hw3 : 0 ≤ w.temperaturePulseSynergy) (a b c : Option ℚ)
    (ha : ∀ x, a = some x → 0 ≤ x ∧ x ≤ 1)
    (hb : ∀ x, b = some x → 0 ≤ x ∧ x ≤ 1)
    (hc : ∀ x, c = some x → 0 ≤ x ∧ x ≤ 1) :
    0 ≤ (compTotals w a b c).1 ∧ (compTotals w a b c).1 ≤ (compTotals w a b c).2 := by
  unfold compTotals
  exact compStep_bounds (compStep_bounds (compStep_bounds ⟨le_rfl, le_rfl⟩ hw1 ha) hw2 hb) hw3 hc

theorem bpStability_assessScore_bounds (h : HealthData) :
    ∀ x, BloodPressureStabilityModel.assessScore h = some x → 0 ≤ x ∧ x ≤ 1 := by
  intro x hx
  unfold BloodPressureStabilityModel.assessScore at hx
  rcases hb : h.bloodPressure with _ | bp <;> rw [hb] at hx <;>
    simp only [Option.some.injEq] at hx <;> subst hx
  · norm_num
  · exact clamp01_bounds _

theorem spo2Perfusion_assessScore_bounds (h : HealthData) :
    ∀ x, BloodOxygenPerfusionModel.assessScore h = some x → 0 ≤ x ∧ x ≤ 1 := by
  intro x hx
  unfold BloodOxygenPerfusionModel.assessScore at hx
  rcases hs : h.spO2 with _ | s <;> rw [hs] at hx <;>
    simp only [Option.some.injEq] at hx <;> subst hx
  · norm_num
  · exact clamp01_bounds _

theorem tps_scoreVal_bounds (h : HealthData) :
    0 ≤ (TemperaturePulseSynergyModel.assess h).scoreVal ∧
      (TemperaturePulseSynergyModel.assess h).scoreVal ≤ 1 := by
  unfold TemperaturePulseSynergyModel.assess
  rcases ht : h.temperature with _ | t <;> rcases hp : pulseSource h with _ | pv <;>
    simp only [TPSResult.scoreVal]
  · norm_num
  · norm_num
  · norm_num
  · split_ifs
    · simp only [TPSResult.scoreVal]; norm_num
    · simp only [TPSResult.scoreVal]
      exact clamp01_bounds _

theorem tps_assessScore_bounds (h : HealthData) :
    ∀ x, TemperaturePulseSynergyModel.assessScore h = some x → 0 ≤ x ∧ x ≤ 1 := by
  intro x hx
  unfold TemperaturePulseSynergyModel.assessScore at hx
  simp only [Option.some.injEq] at hx
  subst hx
  exact tps_scoreVal_bounds h

theorem calculateCompositeScore_bounds (a b c : Option ℚ)
    (ha : ∀ x, a = some x → 0 ≤ x ∧ x ≤ 1)
    (hb : ∀ x, b = some x → 0 ≤ x ∧ x ≤ 1)
    (hc : ∀ x, c = some x → 0 ≤ x ∧ x ≤ 1) :
    0 ≤ (ScientificHealthAssessment.calculateCompositeScore defaultWeights a b c).score ∧
    (ScientificHealthAssessment.calculateCompositeScore defaultWeights a b c).score ≤ 1 ∧
    0 ≤ (ScientificHealthAssessment.calculateCompositeScore defaultWeights a b c).confidence ∧
    (ScientificHealthAssessment.calculateCompositeScore defaultWeights a b c).confidence ≤ 100 := by
  obtain ⟨hts, htw⟩ := compTotals_bounds defaultWeights (by norm_num [defaultWeights])
    (by norm_num [defaultWeights]) (by norm_num [defaultWeights]) a b c ha hb hc
  obtain ⟨hq0, hq1⟩ := comp_quotient_bounds hts htw
  obtain ⟨hs0, hs1⟩ := jsRound_pct_bounds hq0 hq1
  obtain ⟨hc0, hc1⟩ := confidence_bounds (le_trans hts htw)
  exact ⟨hs0, hs1, hc0, hc1⟩

/-- C2 (code evaluated at the failing input): for pulse 130 — a value above
120 — the orchestrator's pulse classifier returns tachycardia/moderate, not
severe_tachycardia/high, because its `> 100` branch precedes the `> 120`
branch, leaving `severe_tachycardia` unreachable; the synergy model's
classifier, which tests `> 120` first, does return severe_tachycardia/high. -/
theorem assessPulse_130_not_severe :
    ScientificHealthAssessment.assessPulse (some 130) =
      .classified "tachycardia" "moderate" 130 ∧
    TemperaturePulseSynergyModel.assessPulse 130 =
      ⟨"severe_tachycardia", "high", 0.2⟩ := by
  constructor <;>
    norm_num [ScientificHealthAssessment.assessPulse,
      TemperaturePulseSynergyModel.assessPulse]

/-- C10: a numeric pulse of 0 is treated as missing data: the pulse
classifier returns the `no_data` sentinel on input 0, and a
blood-pressure-cuff pulse of 0 is falsy, so the pulse-source fallback yields
the SpO2-device pulse-rate reading instead. -/
theorem pulse_zero_behaves_as_missing :
    ScientificHealthAssessment.assessPulse (some 0) = .noData ∧
    pulseSource ⟨some ⟨118, 75, some 0⟩, some ⟨97, 1.2, some 72⟩, none⟩ = some 72 := by
  constructor
  · norm_num [ScientificHealthAssessment.assessPulse]
  · norm_num [pulseSource, jsOr, optTruthy, Option.bind]

/-- C9: the chat-relay proxy answers GET /api/chat with status 405 and a
JSON hint body, GET / with status 200 and health-check JSON, and on
POST /api/chat failure with a JSON body carrying `message` and `error`
fields, at the upstream status code when one is available and 500 otherwise. -/
theorem proxy_routes_spec :
    getApiChatHandler.status = 405 ∧ getApiChatHandler.messageField.isSome = true ∧
    getRootHandler.status = 200 ∧ getRootHandler.okField = some true ∧
    getRootHandler.messageField.isSome = true ∧
    (∀ (u : UpstreamError) (m : String),
      (postApiChatFailure (some u) m).status = u.status ∧
      (postApiChatFailure (some u) m).messageField.isSome = true ∧
      (postApiChatFailure (some u) m).errorField = some u.data) ∧
    (∀ m : String,
      (postApiChatFailure none m).status = 500 ∧
      (postApiChatFailure none m).messageField.isSome = true ∧
      (postApiChatFailure none m).errorField = some m) :=
  ⟨rfl, rfl, rfl, rfl, rfl, fun u m => ⟨rfl, rfl, rfl⟩, fun m => ⟨rfl, rfl, rfl⟩⟩

/-- C6: risk stratification maps grade/score by critical-or-score<0.4 →
very_high, poor-or-<0.6 → high, fair-or-<0.8 → moderate, else low; the
recommendation list is a fixed function of the risk category; the follow-up
interval is very_high→每日 (daily), high→每週 (weekly), moderate→每月
(monthly), low→每季度 (quarterly). -/
theorem riskStratification_spec :
    (∀ (grade : String) (score : ℚ),
      (ScientificHealthAssessment.performRiskStratification grade score).category =
        specRiskCategory grade score ∧
      (ScientificHealthAssessment.performRiskStratification grade score).recommendations =
        recommendationsFor (specRiskCategory grade score) ∧
      (ScientificHealthAssessment.performRiskStratification grade score).followUpInterval =
        ScientificHealthAssessment.getFollowUpInterval (specRiskCategory grade score)) ∧
    ScientificHealthAssessment.getFollowUpInterval "very_high" = "每日" ∧
    ScientificHealthAssessment.getFollowUpInterval "high" = "每週" ∧
    ScientificHealthAssessment.getFollowUpInterval "moderate" = "每月" ∧
    ScientificHealthAssessment.getFollowUpInterval "low" = "每季度" := by
  refine ⟨fun grade score => ?_, rfl, rfl, rfl, rfl⟩
  by_cases h1 : grade = "critical" ∨ score < 0.4 <;>
    by_cases h2 : grade = "poor" ∨ score < 0.6 <;>
    by_cases h3 : grade = "fair" ∨ score < 0.8 <;>
    simp [ScientificHealthAssessment.performRiskStratification, specRiskCategory,
      recommendationsFor, ScientificHealthAssessment.getFollowUpInterval, h1, h2, h3]

/-- C5: the blood-pressure classifier implements the or-rule — its category
and risk level are those of the more severe of the systolic-only stage
(thresholds 180/160/140/130) and the diastolic-only stage (110/100/90/85) —
and systolic 185 with diastolic 115 classifies as stage3_hypertension with
risk level very_high. -/
theorem assessBloodPressure_or_rule :
    (∀ bp : BPData,
      (ScientificHealthAssessment.assessBloodPressure (some bp)).categoryOf =
        bpCategoryOfLevel
          (max (specSystolicLevel bp.systolic) (specDiastolicLevel bp.diastolic)) ∧
      (ScientificHealthAssessment.assessBloodPressure (some bp)).riskLevelOf =
        bpRiskOfLevel
          (max (specSystolicLevel bp.systolic) (specDiastolicLevel bp.diastolic))) ∧
    ScientificHealthAssessment.assessBloodPressure (some ⟨185, 115, none⟩) =
      .classified "stage3_hypertension" "very_high" 185 115 none := by
  constructor
  · intro bp
    rw [assessBloodPressure_level, ← codeBPLevel_eq_max]
    exact ⟨rfl, rfl⟩
  · norm_num [ScientificHealthAssessment.assessBloodPressure]

/-- C8: with the diastolic value fixed, the blood-pressure risk tier is
monotonically nondecreasing in the systolic value under the ordering
low < low_moderate < moderate < high < very_high. -/
theorem assessBloodPressure_monotone_systolic (d s₁ s₂ : ℚ) (p₁ p₂ : Option ℚ)
    (h : s₁ ≤ s₂) :
    tierOrd (ScientificHealthAssessment.assessBloodPressure (some ⟨s₁, d, p₁⟩)).riskLevelOf ≤
      tierOrd (ScientificHealthAssessment.assessBloodPressure (some ⟨s₂, d, p₂⟩)).riskLevelOf := by
  rw [assessBloodPressure_level, assessBloodPressure_level]
  simp only [BPResult.riskLevelOf]
  rw [tierOrd_bpRiskOfLevel (codeBPLevel_le_four _ _),
    tierOrd_bpRiskOfLevel (codeBPLevel_le_four _ _)]
  rw [codeBPLevel_eq_max, codeBPLevel_eq_max]
  exact max_le_max (specSystolicLevel_mono h) le_rfl

/-- Instantiation of the monotonicity theorem: diastolic 80, systolic
raised from 120 to 150. -/
theorem assessBloodPressure_monotone_systolic_witness :
    (120 : ℚ) ≤ 150 ∧
    tierOrd (ScientificHealthAssessment.assessBloodPressure (some ⟨120, 80, none⟩)).riskLevelOf ≤
      tierOrd (ScientificHealthAssessment.assessBloodPressure (some ⟨150, 80, none⟩)).riskLevelOf :=
  ⟨by norm_num, assessBloodPressure_monotone_systolic 80 120 150 none none (by norm_num)⟩

/-- C7: for every reading, the composite score lies in [0,1] and the
composite confidence in [0,100]; and each sub-model scoring rubric clamps
its result to [0,1] after the additive adjustments from the 0.5 base. -/
theorem composite_and_submodel_ranges :
    (∀ h : HealthData,
      0 ≤ (compositeFor h).score ∧ (compositeFor h).score ≤ 1 ∧
      0 ≤ (compositeFor h).confidence ∧ (compositeFor h).confidence ≤ 100) ∧
    (∀ st va, 0 ≤ BloodPressureStabilityModel.calculateStabilityScore st va ∧
      BloodPressureStabilityModel.calculateStabilityScore st va ≤ 1) ∧
    (∀ pe ef, 0 ≤ BloodOxygenPerfusionModel.calculatePerfusionScore pe ef ∧
      BloodOxygenPerfusionModel.calculatePerfusionScore pe ef ≤ 1) ∧
    (∀ t p syn, 0 ≤ TemperaturePulseSynergyModel.calculateSynergyScore t p syn ∧
      TemperaturePulseSynergyModel.calculateSynergyScore t p syn ≤ 1) := by
  refine ⟨fun h => ?_, fun st va => clamp01_bounds _, fun pe ef => clamp01_bounds _,
    fun t p syn => clamp01_bounds _⟩
  exact calculateCompositeScore_bounds _ _ _
    (bpStability_assessScore_bounds h) (spo2Perfusion_assessScore_bounds h)
    (tps_assessScore_bounds h)

/-- A reading carrying only an SpO2 substructure (percent 98, pi 1.5, pr 70):
blood pressure and temperature are absent. -/
def spo2OnlyReading : HealthData := ⟨none, some ⟨98, 1.5, some 70⟩, none⟩

/-- The empty reading: all three substructures absent. -/
def emptyReading : HealthData := ⟨none, none, none⟩

/-- The scenario reading: cuff 120/80 with pulse 110, temperature 38.2
measured axillary (`"腋下"`), no SpO2 data. -/
def feverReading : HealthData := ⟨some ⟨120, 80, some 110⟩, none, some ⟨38.2, "腋下"⟩⟩

/-- C1 (code evaluated at the failing input): on a reading with only SpO2
data, the blood-pressure and temperature-pulse sub-models still report a
defined `score` of 0, so their weights enter the denominator: the composite
confidence is 100 (not 25, the weight of the one present sub-model) and the
composite score is 0.23 (0.9 × 0.25 over total weight 1), not 0.9. -/
theorem missing_submodels_counted_in_composite :
    BloodPressureStabilityModel.assessScore spo2OnlyReading = some 0 ∧
    TemperaturePulseSynergyModel.assessScore spo2OnlyReading = some 0 ∧
    BloodOxygenPerfusionModel.assessScore spo2OnlyReading = some 0.9 ∧
    (compositeFor spo2OnlyReading).confidence = 100 ∧
    (compositeFor spo2OnlyReading).score = 0.23 := by
  have hbp : BloodPressureStabilityModel.assessScore spo2OnlyReading = some 0 := rfl
  have htp : TemperaturePulseSynergyModel.assessScore spo2OnlyReading = some 0 := by
    norm_num [TemperaturePulseSynergyModel.assessScore, TemperaturePulseSynergyModel.assess,
      pulseSource, jsOr, optTruthy, spo2OnlyReading, TPSResult.scoreVal]
  have hsp : BloodOxygenPerfusionModel.assessScore spo2OnlyReading = some 0.9 := by
    norm_num +decide [BloodOxygenPerfusionModel.assessScore, BloodOxygenPerfusionModel.calculatePerfusion,
      BloodOxygenPerfusionModel.calculateEfficiency,
      BloodOxygenPerfusionModel.calculatePerfusionScore, clamp01, spo2OnlyReading]
  refine ⟨hbp, htp, hsp, ?_, ?_⟩ <;>
    rw [compositeFor, hbp, hsp, htp] <;>
    norm_num [ScientificHealthAssessment.calculateCompositeScore, compTotals, compStep,
      defaultWeights, jsRound, ScientificHealthAssessment.calculateConfidence,
      Int.floor_eq_iff]

/-- C3 (code evaluated at the failing input): on the reading with all three
substructures absent, the composite scorer returns score 0 — but its
confidence is 100, not 0, because each sub-model reports a defined score of
0 and the full weight 1.0 accumulates in the denominator. -/
theorem empty_reading_composite :
    (compositeFor emptyReading).score = 0 ∧ (compositeFor emptyReading).confidence = 100 := by
  have hbp : BloodPressureStabilityModel.assessScore emptyReading = some 0 := rfl
  have hsp : BloodOxygenPerfusionModel.assessScore emptyReading = some 0 := rfl
  have htp : TemperaturePulseSynergyModel.assessScore emptyReading = some 0 := rfl
  constructor <;>
    rw [compositeFor, hbp, hsp, htp] <;>
    norm_num [ScientificHealthAssessment.calculateCompositeScore, compTotals, compStep,
      defaultWeights, jsRound, ScientificHealthAssessment.calculateConfidence,
      Int.floor_eq_iff]

/-- C4, counterexample: at temperature 38.2 (axillary) with pulse 110 the
claim fails — the synergy evaluator's correlation is not
positive_correlation (38.2 exceeds the axillary maximum by more than 0.5,
so the temperature category is high_fever, and the correlation rule
requires exactly fever). -/
theorem fever_scenario_counterexample :
    ¬((DataDerivationLogic.generateInsights feverReading).map Insight.type = ["metabolic"] ∧
      (TemperaturePulseSynergyModel.assess feverReading).correlationOf =
        some "positive_correlation") := by
  intro hcl
  have h2 := hcl.2
  norm_num +decide [TemperaturePulseSynergyModel.assess, pulseSource, jsOr, optTruthy,
    feverReading, TemperaturePulseSynergyModel.assessTemperature, normalRangeFor,
    TemperaturePulseSynergyModel.assessPulse, TemperaturePulseSynergyModel.calculateSynergy,
    TemperaturePulseSynergyModel.riskLevelToNumber,
    TemperaturePulseSynergyModel.analyzeCorrelation, TPSResult.correlationOf] at h2

/-- C4, amended: at temperature 38.2 (axillary) with pulse 110 the
derivation engine emits exactly one insight, of type metabolic, and the
temperature-pulse-synergy correlation is no_significant_correlation. -/
theorem fever_scenario_amended :
    (DataDerivationLogic.generateInsights feverReading).map Insight.type = ["metabolic"] ∧
    (TemperaturePulseSynergyModel.assess feverReading).correlationOf =
      some "no_significant_correlation" := by
  constructor
  · norm_num [DataDerivationLogic.generateInsights, feverReading,
      DataDerivationLogic.deriveCirculationInsight, DataDerivationLogic.deriveMetabolicInsight,
      pulseSource, jsOr, optTruthy, optGT, optLT]
  · norm_num +decide [TemperaturePulseSynergyModel.assess, pulseSource, jsOr, optTruthy,
      feverReading, TemperaturePulseSynergyModel.assessTemperature, normalRangeFor,
      TemperaturePulseSynergyModel.assessPulse, TemperaturePulseSynergyModel.calculateSynergy,
      TemperaturePulseSynergyModel.riskLevelToNumber,
      TemperaturePulseSynergyModel.analyzeCorrelation, TPSResult.correlationOf]
